import Mathlib

/-!
# Verification of the MetaScheduler scheduler kernel

Shallow embedding of the scheduler core of the MetaScheduler repository
(`src/Scheduler/`): the per-link transmission-time derivation
(`Frame.update_frame`), the SMT-LIB constraint emitter (`Z3Synthesizer`),
the segmented scheduling strategy (`Scheduler.segmented_approach`), and the
independent schedule verifier (`Network.check_schedule`).

The emitter writes every assertion in a *negated* form: a formula variable
`v` stands for the negation of the intended offset, and
`Z3Synthesizer.save_solution` recovers the offset by taking the magnitude of
the integer printed in the solution file (a negative value is printed in
unary-minus form and the parser reads the bare magnitude).  We therefore
model an SMT model as an assignment `σ : VarName → Int` of the formula
variables, the emitted assertions as propositions over `σ` copied from the
source, and the value stored back into the offset grid as `savedValue (σ n)`
where `savedValue` is the absolute value.
-/

namespace MetaScheduler

/-- Decision-variable names.  The source builds the strings
`Offset_<frame>_<link>_<instance>_<replica>` (`Z3Synthesizer.init_variables`
together with `TreePath.init_name_offset`) and
`Sensing_Control_<link>_<instance>`; both schemes are injective in their
numeric components, so we model the name space by this inductive type. -/
inductive VarName where
  | offsetName (frame link inst replica : Nat)
  | sensingName (link inst : Nat)
deriving DecidableEq, Repr

/-- The integer that `Z3Synthesizer.save_solution` stores into the offset
grid for a formula variable whose model value is `v`: the solution file
prints a negative value in unary-minus form `(- m)` and the parser reads the
bare magnitude `m`, while a non-negative value is read as printed.  In both
cases the stored integer is the absolute value of `v`. -/
def savedValue (v : Int) : Int :=
  (v.natAbs : Int)

theorem savedValue_of_nonpos {v : Int} (h : v ≤ 0) : savedValue v = -v := by
  simp only [savedValue]
  omega

/-- Per-link transmission time as `Frame.update_frame` derives it:
`path.set_transmission_time((self.__size * 1000) / links[link].get_speed())`
truncated to an integer by `TreePath.set_transmission_time`.  The Python
float division truncates to the rational floor for the documented field
ranges (size ≤ 1526 bytes, integer speed ≥ 1), so natural floor division is
an exact model. -/
def transmissionTime (size speed : Nat) : Nat :=
  size * 1000 / speed

/-- Transmission time as the specification's words state it:
`transmission_time_ns = ceil(size_bytes · 8000 / speed_mbps)`, written with
the usual integer ceiling. -/
def specTransmissionTime (size speed : Nat) : Nat :=
  (size * 8000 + (speed - 1)) / speed

/-- A raw (unannotated) path tree node: a link id and the child subtrees,
as built by `TreePath.add_new_path`. -/
inductive RawPath where
  | node (linkId : Nat) (children : List RawPath)
deriving Repr

/-- A path tree node after `Frame.update_frame`: link id, derived
transmission time, derived instance and replica counts, children. -/
inductive UPath where
  | node (linkId : Nat) (ttime : Nat) (numInstances numReplicas : Nat)
      (children : List UPath)
deriving Repr

/-- A directional link as in `Scheduler/Link.py`: an integer speed (the
source documents it in MB/s) and whether it is wireless. -/
structure SLink where
  speed : Nat
  wireless : Bool
deriving Repr, DecidableEq

/-- `Network.link_in_collision_domain` / the list comprehension in
`Frame.update_frame`: index of the first collision domain containing the
link, or none. -/
def collisionDomainOf (cds : List (List Nat)) (link : Nat) : Option Nat :=
  cds.findIdx? (fun cd => link ∈ cd)

/-- Replica count of a path node as `Frame.update_frame` derives it:
`1` when the link lies in no collision domain, else
`list_replicas[domain] + 1`. -/
def numReplicasOf (cds : List (List Nat)) (replicas : List Nat) (link : Nat) : Nat :=
  match collisionDomainOf cds link with
  | none => 1
  | some idx => replicas.getD idx 0 + 1

mutual

/-- `Frame.update_frame`, restricted to one path subtree: annotate every
node with the derived transmission time (from the frame size and the speed
of the node's link) and the derived instance and replica counts. -/
def updatePath (links : List SLink) (size hyper period : Nat)
    (replicas : List Nat) (cds : List (List Nat)) : RawPath → UPath
  | .node l cs =>
      .node l (transmissionTime size ((links.getD l ⟨1, false⟩).speed))
        (hyper / period) (numReplicasOf cds replicas l)
        (updatePathList links size hyper period replicas cds cs)

/-- `Frame.update_frame` over a list of sibling subtrees. -/
def updatePathList (links : List SLink) (size hyper period : Nat)
    (replicas : List Nat) (cds : List (List Nat)) : List RawPath → List UPath
  | [] => []
  | p :: ps =>
      updatePath links size hyper period replicas cds p ::
        updatePathList links size hyper period replicas cds ps

end

/-- Transmission time stored at the root node of an updated path tree. -/
def UPath.rootTtime : UPath → Nat
  | .node _ t _ _ _ => t

/-- **C1, counterexample.**  The claim states the derived per-link
transmission time equals `ceil(size · 8000 / speed)`.  For a one-node path
over a 100-speed link and a 125-byte frame, `Frame.update_frame` stores
`int(125 * 1000 / 100) = 1250`, while the claimed formula yields
`ceil(125 * 8000 / 100) = 10000`. -/
theorem transmission_time_c1_counterexample :
    (updatePath [⟨100, false⟩] 125 10000 10000 [] [] (.node 0 [])).rootTtime = 1250 ∧
    specTransmissionTime 125 100 = 10000 ∧
    (updatePath [⟨100, false⟩] 125 10000 10000 [] [] (.node 0 [])).rootTtime ≠
      specTransmissionTime 125 100 := by
  decide

/-- **C1, amended.**  The derived per-link transmission time is the rational
*floor* of `size · 1000 / speed` (the source divides the byte size by the
link speed the source documents in MB/s and truncates): it is the unique
`t` with `speed · t ≤ size · 1000 < speed · (t + 1)`. -/
theorem transmission_time_c1_amended (size speed : Nat) (hspeed : 0 < speed) :
    speed * transmissionTime size speed ≤ size * 1000 ∧
    size * 1000 < speed * (transmissionTime size speed + 1) := by
  unfold transmissionTime
  constructor
  · rw [Nat.mul_comm]
    exact Nat.div_mul_le_self (size * 1000) speed
  · have h := Nat.lt_div_mul_add (a := size * 1000) hspeed
    calc size * 1000 < size * 1000 / speed * speed + speed := h
      _ = speed * (size * 1000 / speed + 1) := by ring

/-- **C1, witness.** -/
theorem transmission_time_c1_amended_witness :
    0 < 100 ∧
    (100 * transmissionTime 125 100 ≤ 125 * 1000 ∧
      125 * 1000 < 100 * (transmissionTime 125 100 + 1)) :=
  ⟨by decide, transmission_time_c1_amended 125 100 (by decide)⟩

/-- The replica interval `Z3Synthesizer.init_variables` uses in the
instance/replica lattice: it stays `0` unless the path has more than one
replica, in which case it is the network's replica interval under the
`'Spread'` policy and the path's transmission time otherwise. -/
def initReplicaInterval (policy : String) (riNet ttime : Int) (numReplicas : Nat) : Int :=
  if 1 < numReplicas then (if policy = "Spread" then riNet else ttime) else 0

/-- The effective end time `Z3Synthesizer.init_variables` computes before
asserting the window bound: cap the deadline at the window end, subtract
the transmission time, and (when the path has more than one replica)
subtract `(num_replicas - 1)` strides. -/
def initEndTime (deadline endingTime ttime : Int) (policy : String) (riNet : Int)
    (numReplicas : Nat) : Int :=
  let e : Int := (if deadline > endingTime then endingTime else deadline) - ttime
  if 1 < numReplicas then
    e - ((numReplicas : Int) - 1) * (if policy = "Spread" then riNet else ttime)
  else e

/-- The data `Z3Synthesizer.init_variables` reads for one path node of one
frame: frame and link ids, the frame's period and deadline, the node's
transmission time and grid shape. -/
structure PathVars where
  frame : Nat
  link : Nat
  period : Int
  deadline : Int
  ttime : Int
  numInstances : Nat
  numReplicas : Nat
deriving Repr, DecidableEq

/-- Satisfaction of the assertions `Z3Synthesizer.init_variables` emits for
one path node, by an assignment `σ` of the formula variables, copied from
the source:
`(assert (<= O00 (- starting_time)))`, `(assert (> O00 (- end_time)))`, and
for every `(i, r) ≠ (0, 0)` in the grid
`(assert (= Oir (- O00 (i·period + r·replica_interval))))`. -/
def InitVariablesSat (σ : VarName → Int) (policy : String) (riNet : Int)
    (p : PathVars) (startingTime endingTime : Int) : Prop :=
  σ (.offsetName p.frame p.link 0 0) ≤ -startingTime ∧
  σ (.offsetName p.frame p.link 0 0) >
      -(initEndTime p.deadline endingTime p.ttime policy riNet p.numReplicas) ∧
  ∀ i < p.numInstances, ∀ r < p.numReplicas, ¬(i = 0 ∧ r = 0) →
    σ (.offsetName p.frame p.link i r) =
      σ (.offsetName p.frame p.link 0 0) -
        ((i : Int) * p.period +
          (r : Int) * initReplicaInterval policy riNet p.ttime p.numReplicas)

instance (σ : VarName → Int) (policy : String) (riNet : Int) (p : PathVars)
    (startingTime endingTime : Int) :
    Decidable (InitVariablesSat σ policy riNet p startingTime endingTime) := by
  unfold InitVariablesSat
  infer_instance

/-- **C2.**  For every path node whose `init_variables` assertions a model
`σ` satisfies, the integer offsets that `save_solution` stores into the
grid satisfy `O[i][r] = O[0][0] + i·period + r·stride`, where the stride is
the replica interval under the `'Spread'` policy and the path's transmission
time otherwise — through the negated encoding and the magnitude decode. -/
theorem offset_grid_lattice_c2 (σ : VarName → Int) (policy : String) (riNet : Int)
    (p : PathVars) (startingTime endingTime : Int)
    (hsat : InitVariablesSat σ policy riNet p startingTime endingTime)
    (hst : 0 ≤ startingTime) (hper : 0 ≤ p.period) (hT : 0 ≤ p.ttime) (hri : 0 ≤ riNet)
    (i r : Nat) (hi : i < p.numInstances) (hr : r < p.numReplicas) :
    savedValue (σ (.offsetName p.frame p.link i r)) =
      savedValue (σ (.offsetName p.frame p.link 0 0)) +
        (i : Int) * p.period +
        (r : Int) * (if policy = "Spread" then riNet else p.ttime) := by
  obtain ⟨h1, h2, h3⟩ := hsat
  have h00 : σ (.offsetName p.frame p.link 0 0) ≤ 0 := by linarith
  by_cases hzero : i = 0 ∧ r = 0
  · obtain ⟨hi0, hr0⟩ := hzero
    subst hi0; subst hr0
    simp
  · have heq := h3 i hi r hr hzero
    have hstride : (r : Int) * initReplicaInterval policy riNet p.ttime p.numReplicas =
        (r : Int) * (if policy = "Spread" then riNet else p.ttime) := by
      rcases Nat.eq_zero_or_pos r with hr0 | hrpos
      · subst hr0; simp
      · have hR : 1 < p.numReplicas := lt_of_le_of_lt hrpos hr
        simp [initReplicaInterval, hR]
    have hriNN : 0 ≤ initReplicaInterval policy riNet p.ttime p.numReplicas := by
      unfold initReplicaInterval
      split_ifs <;> omega
    have hv1 : (0 : Int) ≤ (i : Int) * p.period :=
      mul_nonneg (Int.natCast_nonneg i) hper
    have hv2 : (0 : Int) ≤ (r : Int) * initReplicaInterval policy riNet p.ttime p.numReplicas :=
      mul_nonneg (Int.natCast_nonneg r) hriNN
    have hirNP : σ (.offsetName p.frame p.link i r) ≤ 0 := by
      rw [heq]; linarith
    rw [savedValue_of_nonpos hirNP, savedValue_of_nonpos h00, heq, hstride]
    ring

/-- A concrete satisfying assignment for the witnesses: frame 0, link 0,
period 100, replica interval 20, with the formula variables holding the
negated offsets. -/
def exampleSigma : VarName → Int
  | .offsetName 0 0 i r => -((100 * i + 20 * r : Nat) : Int)
  | _ => 0

/-- **C2, witness.** -/
theorem offset_grid_lattice_c2_witness :
    savedValue (exampleSigma (.offsetName 0 0 1 1)) =
      savedValue (exampleSigma (.offsetName 0 0 0 0)) + (1 : Int) * 100 + (1 : Int) * 20 := by
  have h := offset_grid_lattice_c2 exampleSigma "Spread" 20 ⟨0, 0, 100, 1000, 10, 2, 2⟩ 0 1000
    (by decide) (by decide) (by decide) (by decide) (by decide) 1 1 (by decide) (by decide)
  simpa using h

/-- The per-path window bound as the claim (and the specification) states
it: `t_lo ≤ O[0][0] ≤ end`, with a non-strict upper bound. -/
def specInitOffsetBound (startingTime endTime x : Int) : Prop :=
  startingTime ≤ x ∧ x ≤ endTime

instance (startingTime endTime x : Int) :
    Decidable (specInitOffsetBound startingTime endTime x) := by
  unfold specInitOffsetBound
  infer_instance

/-- The all-zero assignment. -/
def zeroSigma : VarName → Int := fun _ => 0

/-- **C3, counterexample.**  With `t_lo = 0`, `t_hi = 10000`,
`deadline = 10000`, transmission time `10000` and one replica, the
effective end is `0`.  The decoded offset `0` satisfies the claimed bound
`t_lo ≤ O[0][0] ≤ end`, yet the assignment encoding it violates the
assertions `init_variables` actually emits: the emitted upper bound is
strict (`(assert (> O00 (- end_time)))` decodes to `O[0][0] < end`). -/
theorem init_window_c3_counterexample :
    specInitOffsetBound 0 (initEndTime 10000 10000 10000 "Spread" 0 1)
        (savedValue (zeroSigma (.offsetName 0 0 0 0))) ∧
    ¬ InitVariablesSat zeroSigma "Spread" 0 ⟨0, 0, 10000, 10000, 10000, 1, 1⟩ 0 10000 := by
  decide

/-- **C3, amended.**  The variable-introduction family asserts
`t_lo ≤ O[0][0] < end` on the decoded first offset — a *strict* upper
bound; `end` is computed exactly as the claim says. -/
theorem init_window_c3_amended (σ : VarName → Int) (policy : String) (riNet : Int)
    (p : PathVars) (startingTime endingTime : Int)
    (hsat : InitVariablesSat σ policy riNet p startingTime endingTime)
    (hst : 0 ≤ startingTime) :
    startingTime ≤ savedValue (σ (.offsetName p.frame p.link 0 0)) ∧
    savedValue (σ (.offsetName p.frame p.link 0 0)) <
      initEndTime p.deadline endingTime p.ttime policy riNet p.numReplicas := by
  obtain ⟨h1, h2, -⟩ := hsat
  have h00 : σ (.offsetName p.frame p.link 0 0) ≤ 0 := by linarith
  rw [savedValue_of_nonpos h00]
  constructor <;> linarith

/-- **C3, witness.** -/
theorem init_window_c3_amended_witness :
    (0 : Int) ≤ savedValue (exampleSigma (.offsetName 0 0 0 0)) ∧
    savedValue (exampleSigma (.offsetName 0 0 0 0)) <
      initEndTime 1000 1000 10 "Spread" 20 2 :=
  init_window_c3_amended exampleSigma "Spread" 20 ⟨0, 0, 100, 1000, 10, 2, 2⟩ 0 1000
    (by decide) (by decide)

/-- `Network.link_in_collision_domain`: the index of the first collision
domain containing the link, and `-1` when there is none (the source returns
`-1`, not `None`). -/
def linkInCollisionDomain (cds : List (List Nat)) (link : Nat) : Int :=
  match collisionDomainOf cds link with
  | none => -1
  | some idx => (idx : Int)

/-- The pair condition `Z3Synthesizer.contention_free` checks before
emitting anything: the two path nodes carry the same link, or both lie in
the same collision domain. -/
def sharesResource (cds : List (List Nat)) (link prevLink : Nat) : Prop :=
  link = prevLink ∨
    (linkInCollisionDomain cds link ≥ 0 ∧
      linkInCollisionDomain cds link = linkInCollisionDomain cds prevLink)

instance (cds : List (List Nat)) (link prevLink : Nat) :
    Decidable (sharesResource cds link prevLink) := by
  unfold sharesResource
  infer_instance

/-- The single assertion `contention_free` writes for one pair of grid
entries, copied from the source:
`(assert (or (> (- Oa Ta) Ob) (<= Oa (- Ob Tb))))`. -/
def contentionAssert (σ : VarName → Int) (a b : VarName) (ta tb : Int) : Prop :=
  σ a - ta > σ b ∨ σ a ≤ σ b - tb

instance (σ : VarName → Int) (a b : VarName) (ta tb : Int) :
    Decidable (contentionAssert σ a b ta tb) := by
  unfold contentionAssert
  infer_instance

/-- `contention_free`'s lower instance bound:
`starting_time // period` (Python floor division of non-negative ints). -/
def minInstanceIdx (startingTime period : Nat) : Nat :=
  startingTime / period

/-- `contention_free`'s upper instance bound:
`int(ceil(ending_time / period))`; for the magnitudes of valid models the
float ceiling equals the integer ceiling `(e + p - 1) / p`. -/
def maxInstanceIdx (endingTime period : Nat) : Nat :=
  (endingTime + period - 1) / period

/-- The data `contention_free` reads for one path node: frame and link ids,
the frame's period (used only for the instance range), the node's
transmission time and replica count. -/
structure CPath where
  frame : Nat
  link : Nat
  period : Nat
  ttime : Int
  numReplicas : Nat
deriving Repr, DecidableEq

/-- The assertions `contention_free` emits for one grid entry `(i, r)` of
path node `a` against every in-window instance `j` and replica `s` of path
node `b` (the inner two loops of the source's nest). -/
def ContentionInnerSat (σ : VarName → Int) (a b : CPath) (i r : Nat)
    (startingTime endingTime : Nat) : Prop :=
  ∀ j < maxInstanceIdx endingTime b.period, minInstanceIdx startingTime b.period ≤ j →
    ∀ s < b.numReplicas,
      contentionAssert σ (.offsetName a.frame a.link i r)
        (.offsetName b.frame b.link j s) a.ttime b.ttime

instance (σ : VarName → Int) (a b : CPath) (i r startingTime endingTime : Nat) :
    Decidable (ContentionInnerSat σ a b i r startingTime endingTime) := by
  unfold ContentionInnerSat
  infer_instance

/-- Satisfaction of the family of assertions `contention_free` emits for
one ordered pair of path nodes `(a, b)`: if they share a link or a
collision domain, the pairwise assertion is emitted for every instance of
`a` in `[min, max)` and every replica, against every instance of `b` in its
own `[min, max)` range and every replica. -/
def ContentionFreeSat (σ : VarName → Int) (cds : List (List Nat))
    (a b : CPath) (startingTime endingTime : Nat) : Prop :=
  sharesResource cds a.link b.link →
    ∀ i < maxInstanceIdx endingTime a.period, minInstanceIdx startingTime a.period ≤ i →
    ∀ r < a.numReplicas, ContentionInnerSat σ a b i r startingTime endingTime

instance (σ : VarName → Int) (cds : List (List Nat)) (a b : CPath)
    (startingTime endingTime : Nat) :
    Decidable (ContentionFreeSat σ cds a b startingTime endingTime) := by
  unfold ContentionFreeSat
  infer_instance

/-- The contention disjunction as the claim words it:
`O_a + T_a ≤ O_b ∨ O_a ≥ O_b + T_b`, with a *non-strict* first disjunct. -/
def specContentionDisjunction (xa xb ta tb : Int) : Prop :=
  xa + ta ≤ xb ∨ xa ≥ xb + tb

instance (xa xb ta tb : Int) : Decidable (specContentionDisjunction xa xb ta tb) := by
  unfold specContentionDisjunction
  infer_instance

/-- An assignment whose decoded offsets are back-to-back:
`O_a = 0` with `T_a = 5` and `O_b = 5`. -/
def contSigma : VarName → Int
  | .offsetName 1 0 0 0 => -5
  | _ => 0

/-- **C4, counterexample.**  Frames 0 and 1 share link 0, with transmission
times 5 and decoded offsets `O_a = 0`, `O_b = 5`.  The claimed non-strict
disjunction `O_a + T_a ≤ O_b ∨ O_a ≥ O_b + T_b` holds (`0 + 5 ≤ 5`), yet
the assignment violates the assertions `contention_free` actually emits:
the emitted first disjunct decodes to the *strict* `O_a + T_a < O_b`. -/
theorem contention_c4_counterexample :
    specContentionDisjunction (savedValue (contSigma (.offsetName 0 0 0 0)))
        (savedValue (contSigma (.offsetName 1 0 0 0))) 5 5 ∧
    sharesResource [] 0 0 ∧
    ¬ ContentionFreeSat contSigma [] ⟨0, 0, 10, 5, 1⟩ ⟨1, 0, 10, 5, 1⟩ 0 10 := by
  decide

/-- **C4, amended.**  For every pair of path nodes sharing a link or a
collision domain and every in-window instance/replica pair of each, the
emitted contention assertion decodes to
`O_a + T_a < O_b ∨ O_a ≥ O_b + T_b`: strict `<` in the first disjunct and
non-strict `≥` in the second. -/
theorem contention_c4_amended (σ : VarName → Int) (cds : List (List Nat))
    (a b : CPath) (startingTime endingTime : Nat)
    (hsat : ContentionFreeSat σ cds a b startingTime endingTime)
    (hshare : sharesResource cds a.link b.link)
    (i r j s : Nat)
    (hi1 : i < maxInstanceIdx endingTime a.period)
    (hi2 : minInstanceIdx startingTime a.period ≤ i)
    (hr : r < a.numReplicas)
    (hj1 : j < maxInstanceIdx endingTime b.period)
    (hj2 : minInstanceIdx startingTime b.period ≤ j)
    (hs : s < b.numReplicas)
    (hna : σ (.offsetName a.frame a.link i r) ≤ 0)
    (hnb : σ (.offsetName b.frame b.link j s) ≤ 0) :
    savedValue (σ (.offsetName a.frame a.link i r)) + a.ttime <
        savedValue (σ (.offsetName b.frame b.link j s)) ∨
    savedValue (σ (.offsetName a.frame a.link i r)) ≥
        savedValue (σ (.offsetName b.frame b.link j s)) + b.ttime := by
  have h := hsat hshare i hi1 hi2 r hr j hj1 hj2 s hs
  rw [savedValue_of_nonpos hna, savedValue_of_nonpos hnb]
  unfold contentionAssert at h
  omega

/-- An assignment placing frame 1 well after frame 0 on the shared link. -/
def contSigmaGap : VarName → Int
  | .offsetName 1 0 0 0 => -10
  | _ => 0

/-- **C4, witness.** -/
theorem contention_c4_amended_witness :
    savedValue (contSigmaGap (.offsetName 0 0 0 0)) + 5 <
        savedValue (contSigmaGap (.offsetName 1 0 0 0)) ∨
    savedValue (contSigmaGap (.offsetName 0 0 0 0)) ≥
        savedValue (contSigmaGap (.offsetName 1 0 0 0)) + 5 :=
  contention_c4_amended contSigmaGap [] ⟨0, 0, 10, 5, 1⟩ ⟨1, 0, 10, 5, 1⟩ 0 10
    (by decide) (by decide) 0 0 0 0 (by decide) (by decide) (by decide) (by decide)
    (by decide) (by decide) (by decide) (by decide)

/-- Link id at the root of a raw path node. -/
def RawPath.linkId : RawPath → Nat
  | .node l _ => l

mutual

/-- The (parent link, child link) pairs `path_dependent` and
`switch_memory` iterate over: for every node of the tree in pre-order, one
pair per child. -/
def parentChildPairs : RawPath → List (Nat × Nat)
  | .node l cs => cs.map (fun c => (l, c.linkId)) ++ parentChildPairsList cs

/-- `parentChildPairs` over a list of sibling subtrees. -/
def parentChildPairsList : List RawPath → List (Nat × Nat)
  | [] => []
  | p :: ps => parentChildPairs p ++ parentChildPairsList ps

end

/-- Satisfaction of the assertions `Z3Synthesizer.path_dependent` emits for
one frame's tree, copied from the source: for every parent/child pair,
`(assert (<= Oc (- Op min_switch)))`. -/
def PathDependentSat (σ : VarName → Int) (f : Nat) (tree : RawPath) (minSwitch : Int) : Prop :=
  ∀ pc ∈ parentChildPairs tree,
    σ (.offsetName f pc.2 0 0) ≤ σ (.offsetName f pc.1 0 0) - minSwitch

instance (σ : VarName → Int) (f : Nat) (tree : RawPath) (minSwitch : Int) :
    Decidable (PathDependentSat σ f tree minSwitch) := by
  unfold PathDependentSat
  infer_instance

/-- Satisfaction of the assertions `Z3Synthesizer.switch_memory` emits for
one frame's tree, copied from the source: for every parent/child pair,
`(assert (> Oc (- Op max_switch)))`. -/
def SwitchMemorySat (σ : VarName → Int) (f : Nat) (tree : RawPath) (maxSwitch : Int) : Prop :=
  ∀ pc ∈ parentChildPairs tree,
    σ (.offsetName f pc.2 0 0) > σ (.offsetName f pc.1 0 0) - maxSwitch

instance (σ : VarName → Int) (f : Nat) (tree : RawPath) (maxSwitch : Int) :
    Decidable (SwitchMemorySat σ f tree maxSwitch) := by
  unfold SwitchMemorySat
  infer_instance

/-- **C7.**  For every parent path node and each of its children in the
same frame's tree, the assertions emitted by `path_dependent` and
`switch_memory` decode to `O_c[0][0] ≥ O_p[0][0] + min_switch_ns` and
`O_c[0][0] < O_p[0][0] + max_switch_ns`. -/
theorem path_switch_bounds_c7 (σ : VarName → Int) (f : Nat) (tree : RawPath)
    (minSwitch maxSwitch : Int)
    (h1 : PathDependentSat σ f tree minSwitch)
    (h2 : SwitchMemorySat σ f tree maxSwitch)
    (pc : Nat × Nat) (hpc : pc ∈ parentChildPairs tree)
    (hcn : σ (.offsetName f pc.2 0 0) ≤ 0)
    (hpn : σ (.offsetName f pc.1 0 0) ≤ 0) :
    savedValue (σ (.offsetName f pc.2 0 0)) ≥
        savedValue (σ (.offsetName f pc.1 0 0)) + minSwitch ∧
    savedValue (σ (.offsetName f pc.2 0 0)) <
        savedValue (σ (.offsetName f pc.1 0 0)) + maxSwitch := by
  have ha := h1 pc hpc
  have hb := h2 pc hpc
  rw [savedValue_of_nonpos hcn, savedValue_of_nonpos hpn]
  omega

/-- An assignment forwarding frame 0 from link 0 to link 1 after 5 ns. -/
def switchSigma : VarName → Int
  | .offsetName 0 1 0 0 => -5
  | _ => 0

/-- **C7, witness.** -/
theorem path_switch_bounds_c7_witness :
    savedValue (switchSigma (.offsetName 0 1 0 0)) ≥
        savedValue (switchSigma (.offsetName 0 0 0 0)) + 1 ∧
    savedValue (switchSigma (.offsetName 0 1 0 0)) <
        savedValue (switchSigma (.offsetName 0 0 0 0)) + 10 :=
  path_switch_bounds_c7 switchSigma 0 (.node 0 [.node 1 []]) 1 10
    (by decide) (by decide) (0, 1) (by decide) (by decide) (by decide)

/-- One dependency edge as `dependencies_constraints` sees it: the
predecessor's frame/link, the successor's frame/link, and the waiting and
deadline times. -/
structure DepEdge where
  predFrame : Nat
  predLink : Nat
  succFrame : Nat
  succLink : Nat
  waiting : Int
  deadline : Int
deriving Repr, DecidableEq

/-- Satisfaction of the assertions `Z3Synthesizer.dependencies_constraints`
emits for one successor frame whose dependency node has a parent, copied
from the source.  If `deadline > 0` it writes
`(assert (> Os (- Op deadline)))` *and* `(assert (< Os Op))`; if
`waiting > 0` it writes `(assert (< Os (- Op waiting)))`. -/
def DependencyAssertSat (σ : VarName → Int) (d : DepEdge) : Prop :=
  (d.deadline > 0 →
    σ (.offsetName d.succFrame d.succLink 0 0) >
        σ (.offsetName d.predFrame d.predLink 0 0) - d.deadline ∧
    σ (.offsetName d.succFrame d.succLink 0 0) <
        σ (.offsetName d.predFrame d.predLink 0 0)) ∧
  (d.waiting > 0 →
    σ (.offsetName d.succFrame d.succLink 0 0) <
        σ (.offsetName d.predFrame d.predLink 0 0) - d.waiting)

instance (σ : VarName → Int) (d : DepEdge) : Decidable (DependencyAssertSat σ d) := by
  unfold DependencyAssertSat
  infer_instance

/-- **C10.**  Whenever a dependency with `deadline > 0` is emitted, the
second assertion of the deadline branch decodes to the strict ordering
`O_succ[0][0] > O_pred[0][0]` — with no hypothesis on the waiting time, so
a deadline-only dependency (waiting 0) still forces the successor strictly
after its predecessor. -/
theorem dependency_strict_order_c10 (σ : VarName → Int) (d : DepEdge)
    (hsat : DependencyAssertSat σ d) (hd : d.deadline > 0)
    (hs : σ (.offsetName d.succFrame d.succLink 0 0) ≤ 0)
    (hp : σ (.offsetName d.predFrame d.predLink 0 0) ≤ 0) :
    savedValue (σ (.offsetName d.succFrame d.succLink 0 0)) >
      savedValue (σ (.offsetName d.predFrame d.predLink 0 0)) := by
  obtain ⟨h1, -⟩ := hsat
  obtain ⟨-, h2⟩ := h1 hd
  rw [savedValue_of_nonpos hs, savedValue_of_nonpos hp]
  omega

/-- An assignment scheduling the successor (frame 1 on link 1) 10 ns after
its predecessor (frame 0 on link 0). -/
def depSigma : VarName → Int
  | .offsetName 1 1 0 0 => -10
  | _ => 0

/-- **C10, witness** — a deadline-only dependency (waiting = 0,
deadline = 50). -/
theorem dependency_strict_order_c10_witness :
    savedValue (depSigma (.offsetName 1 1 0 0)) >
      savedValue (depSigma (.offsetName 0 0 0 0)) :=
  dependency_strict_order_c10 depSigma ⟨0, 0, 1, 1, 0, 50⟩
    (by decide) (by decide) (by decide) (by decide)

/-- One already-solved path as `Z3Synthesizer.load_fixed_values` reads it:
frame and link ids plus the solved integer offset grid (rectangular, as
`TreePath.init_offset` builds it). -/
structure SolvedPath where
  frame : Nat
  link : Nat
  grid : List (List Int)
deriving Repr, DecidableEq

/-- `TreePath.get_offset` for an in-range index of a solved grid. -/
def gridAt (grid : List (List Int)) (i r : Nat) : Int :=
  (grid.getD i []).getD r 0

/-- `TreePath.get_num_instances`: the number of grid rows. -/
def gridNumInstances (grid : List (List Int)) : Nat :=
  grid.length

/-- `TreePath.get_num_replicas`: the length of the first grid row. -/
def gridNumReplicas (grid : List (List Int)) : Nat :=
  (grid.headD []).length

/-- `Z3Synthesizer.load_fixed_values`: for every path of every given frame
and every grid entry, re-declare the variable and fix it with an equality
assertion if `starting_time < value < ending_time` — strict on *both*
sides (`if starting_time < value < ending_time:` in the source). -/
def loadFixedValues (paths : List SolvedPath) (startingTime endingTime : Int) :
    List (VarName × Int) :=
  paths.flatMap fun p =>
    (List.range (gridNumInstances p.grid)).flatMap fun i =>
      (List.range (gridNumReplicas p.grid)).filterMap fun r =>
        if startingTime < gridAt p.grid i r ∧ gridAt p.grid i r < endingTime then
          some (.offsetName p.frame p.link i r, gridAt p.grid i r)
        else none

/-- **C8, counterexample.**  A solved path whose only offset is `0` lies in
the window `[0, 1000)`, yet `load_fixed_values` over `[0, 1000)` restates
nothing: the lower comparison is strict, so an offset equal to the window
start (in incremental mode, equal to `0`) is silently dropped. -/
theorem load_fixed_values_c8_counterexample :
    gridAt [[0]] 0 0 = 0 ∧ (0 : Int) ≤ gridAt [[0]] 0 0 ∧ gridAt [[0]] 0 0 < 1000 ∧
    loadFixedValues [⟨0, 0, [[0]]⟩] 0 1000 = [] := by
  decide

/-- **C8, amended.**  `load_fixed_values` restates exactly the solved
offsets lying *strictly* inside `(starting_time, ending_time)`: every
emitted equality has its value strictly inside the window, and every grid
entry whose value is strictly inside the window is emitted.  Offsets equal
to `starting_time` (in particular, offsets equal to `0` in incremental
mode) are not restated. -/
theorem load_fixed_values_c8_amended (paths : List SolvedPath)
    (startingTime endingTime : Int) :
    (∀ nv ∈ loadFixedValues paths startingTime endingTime,
        startingTime < nv.2 ∧ nv.2 < endingTime) ∧
    (∀ p ∈ paths, ∀ i < gridNumInstances p.grid, ∀ r < gridNumReplicas p.grid,
        startingTime < gridAt p.grid i r → gridAt p.grid i r < endingTime →
        (VarName.offsetName p.frame p.link i r, gridAt p.grid i r) ∈
          loadFixedValues paths startingTime endingTime) := by
  constructor
  · intro nv hnv
    simp only [loadFixedValues, List.mem_flatMap, List.mem_range, List.mem_filterMap] at hnv
    obtain ⟨p, hp, i, hi, r, hr, hcond⟩ := hnv
    by_cases hc : startingTime < gridAt p.grid i r ∧ gridAt p.grid i r < endingTime
    · rw [if_pos hc] at hcond
      obtain rfl := Option.some.inj hcond
      exact hc
    · rw [if_neg hc] at hcond
      cases hcond
  · intro p hp i hi r hr h1 h2
    simp only [loadFixedValues, List.mem_flatMap, List.mem_range, List.mem_filterMap]
    exact ⟨p, hp, i, hi, r, hr, by rw [if_pos ⟨h1, h2⟩]⟩

/-- **C8, witness.** -/
theorem load_fixed_values_c8_amended_witness :
    (VarName.offsetName 0 0 0 0, (5 : Int)) ∈ loadFixedValues [⟨0, 0, [[5]]⟩] 0 1000 :=
  (load_fixed_values_c8_amended [⟨0, 0, [[5]]⟩] 0 1000).2 ⟨0, 0, [[5]]⟩ (by decide)
    0 (by decide) 0 (by decide) (by decide) (by decide)

/-- The mutable loop state of `Scheduler.segmented_approach`:
`all_frames_schedules`, `free_space_segment`, `step_size`,
`starting_frame`, `starting_time`, `ending_time`, plus a counter of
`check_satisfiability` calls so an oracle can supply the decider's
answers. -/
structure SegState where
  allFramesSchedules : Bool
  freeSpaceSegment : Bool
  stepSize : Int
  startingFrame : Int
  startingTime : Int
  endingTime : Int
  satCalls : Nat
deriving Repr, DecidableEq

/-- The inner `while free_space_segment` loop of `segmented_approach`,
fueled; `oracle k` is the result of the `k`-th `check_satisfiability`
call.  Constraint emission and solution saving do not affect control flow
and are elided; every state update is copied from the source. -/
def segInnerLoop (oracle : Nat → Bool) (numFrames segmentSize : Int) :
    Nat → SegState → Option SegState
  | 0, _ => none
  | fuel + 1, s =>
    if s.freeSpaceSegment then
      let step : Int :=
        if s.startingFrame + s.stepSize ≥ numFrames then numFrames - s.stepSize
        else s.stepSize
      if oracle s.satCalls then
        if s.startingFrame + step + 1 ≥ numFrames then
          segInnerLoop oracle numFrames segmentSize fuel
            { s with stepSize := step, satCalls := s.satCalls + 1,
                     allFramesSchedules := true, freeSpaceSegment := false,
                     startingFrame := s.startingFrame + step }
        else
          segInnerLoop oracle numFrames segmentSize fuel
            { s with stepSize := step, satCalls := s.satCalls + 1,
                     startingFrame := s.startingFrame + step }
      else
        segInnerLoop oracle numFrames segmentSize fuel
          { s with stepSize := step, satCalls := s.satCalls + 1,
                   freeSpaceSegment := false,
                   startingTime := s.endingTime,
                   endingTime := s.endingTime + segmentSize }
    else some s

/-- The outer `while not all_frames_schedules and starting_time <
hyper_period` loop of `segmented_approach`, fueled. -/
def segOuterLoop (oracle : Nat → Bool) (numFrames hyperPeriod segmentSize : Int) :
    Nat → SegState → Option SegState
  | 0, _ => none
  | fuel + 1, s =>
    if s.allFramesSchedules = false ∧ s.startingTime < hyperPeriod then
      let s1 := { s with endingTime :=
        if s.endingTime > hyperPeriod then hyperPeriod else s.endingTime }
      match segInnerLoop oracle numFrames segmentSize (fuel + 1) s1 with
      | none => none
      | some s2 =>
          segOuterLoop oracle numFrames hyperPeriod segmentSize fuel
            { s2 with freeSpaceSegment := true }
    else some s

/-- `Scheduler.segmented_approach` after the frame queue is built: run the
segment loops from the initial state of the source
(`step_size = 5`, `segment_size = 1000000`, window `[0, 1000000)`), then —
once the outer loop exits — generate the schedule file and return `True`
*unconditionally*: the source never checks whether frames remain
unscheduled. -/
def segmentedApproachResult (oracle : Nat → Bool) (numFrames hyperPeriod : Int)
    (fuel : Nat) : Option (Bool × SegState) :=
  (segOuterLoop oracle numFrames hyperPeriod 1000000 fuel
      ⟨false, true, 5, 0, 0, 1000000, 0⟩).map fun s => (true, s)

/-- **C5.**  With 7 frames, hyper-period 1 000 000 and a decider that
answers unsat to every call, the segmented strategy exits its loops with
`starting_time = hyper_period` while no frame has been scheduled
(`starting_frame = 0`, `all_frames_schedules = False`) — and still returns
`True` (success), where the claim requires an infeasibility report. -/
theorem segmented_c5_success_despite_unscheduled :
    (segmentedApproachResult (fun _ => false) 7 1000000 10).map Prod.fst = some true ∧
    (segmentedApproachResult (fun _ => false) 7 1000000 10).map
        (fun r => r.2.allFramesSchedules) = some false ∧
    (segmentedApproachResult (fun _ => false) 7 1000000 10).map
        (fun r => r.2.startingFrame) = some 0 ∧
    (segmentedApproachResult (fun _ => false) 7 1000000 10).map
        (fun r => r.2.startingTime) = some 1000000 :=
  ⟨rfl, rfl, rfl, rfl⟩

/-- The method names the class `DependencyNode` in
`src/Scheduler/Dependency.py` defines (besides `__init__`). -/
def dependencyNodeMethods : List String :=
  ["add_new_children", "search_and_add_dependency",
   "get_dependency_by_predecessor_frame", "get_parent", "get_deadline",
   "get_waiting", "get_frame_index", "get_link_index"]

/-- A Python runtime error relevant to the modelled fragment. -/
inductive PyError where
  | attributeError (name : String)
deriving Repr, DecidableEq

/-- A node of the scheduler-side dependency tree
(`Scheduler/Dependency.py`): frame index, link index, waiting and deadline
times, and the owned children. -/
inductive DepNode where
  | node (frameIndex linkIndex : Nat) (waiting deadline : Int)
      (children : List DepNode)
deriving Repr

/-- Frame index stored at a dependency node. -/
def DepNode.frameIndex : DepNode → Nat
  | .node f _ _ _ _ => f

/-- Link index stored at a dependency node. -/
def DepNode.linkIndex : DepNode → Nat
  | .node _ l _ _ _ => l

/-- Waiting time stored at a dependency node. -/
def DepNode.waiting : DepNode → Int
  | .node _ _ w _ _ => w

/-- Deadline time stored at a dependency node. -/
def DepNode.deadline : DepNode → Int
  | .node _ _ _ d _ => d

mutual

/-- `DependencyNode.get_dependency_by_predecessor_frame`: the first node in
pre-order whose frame index matches, together with its parent node (the
source keeps an explicit parent back-pointer; we thread it instead). -/
def getDepByFrameAux (parent : Option DepNode) :
    DepNode → Nat → Option (DepNode × Option DepNode)
  | .node f l w d cs, frameIndex =>
      if f = frameIndex then some (.node f l w d cs, parent)
      else getDepByFrameAuxList (some (.node f l w d cs)) cs frameIndex

/-- `getDepByFrameAux` over the children list of one node. -/
def getDepByFrameAuxList (parent : Option DepNode) :
    List DepNode → Nat → Option (DepNode × Option DepNode)
  | [], _ => none
  | c :: cs, frameIndex =>
      match getDepByFrameAux parent c frameIndex with
      | some r => some r
      | none => getDepByFrameAuxList parent cs frameIndex

end

/-- `DependencyTree.get_dependency_by_frame`: search every tree of the
forest in turn (a root of a tree of the forest has no parent). -/
def getDependencyByFrame (trees : List DepNode) (frameIndex : Nat) :
    Option (DepNode × Option DepNode) :=
  getDepByFrameAuxList none trees frameIndex

/-- The call `dependency.get_maximum_waiting_time_node()` in
`Scheduler.segmented_approach`, as Python resolves it: look the attribute
up among the methods the class defines.  `DependencyNode` defines no method
of that name (and no definition of that name exists anywhere under
`src/`), so the lookup raises `AttributeError`. -/
def callGetMaximumWaitingTimeNode (d : DepNode) : Except PyError Int :=
  if "get_maximum_waiting_time_node" ∈ dependencyNodeMethods then
    Except.ok (d.waiting)
  else
    Except.error (.attributeError "get_maximum_waiting_time_node")

/-- A frame block of the segmented queue: frame index and the absolute
deadline stored in the `FrameBlock`. -/
structure QFrame where
  frameIndex : Nat
  deadline : Int
deriving Repr, DecidableEq

/-- The frame-queue construction of `Scheduler.segmented_approach`: for
every frame index, fetch its dependency node; when one exists, the
effective deadline subtracts `dependency.get_maximum_waiting_time_node()`
(which raises, see `callGetMaximumWaitingTimeNode`); finally sort the
queue ascending by deadline (Python's stable `list.sort`). -/
def buildSegmentedQueue (frameDeadlines : List Int) (depTrees : List DepNode) :
    Except PyError (List QFrame) := do
  let blocks ← (List.range frameDeadlines.length).mapM fun index => do
    let waitingTime ← match getDependencyByFrame depTrees index with
      | none => pure (0 : Int)
      | some (d, _) => callGetMaximumWaitingTimeNode d
    pure (⟨index, frameDeadlines.getD index 0 - waitingTime⟩ : QFrame)
  pure (blocks.mergeSort fun x y => x.deadline ≤ y.deadline)

/-- **C9.**  On a model with two frames and one dependency
(frame 0 on link 0 precedes frame 1 on link 1, waiting 10, deadline 50),
the frame-queue construction of the segmented strategy raises
`AttributeError`: the effective-deadline computation calls
`get_maximum_waiting_time_node`, a method `DependencyNode` does not
define.  The ordering step therefore cannot succeed on any model with a
dependency. -/
theorem segmented_queue_c9_attribute_error :
    buildSegmentedQueue [1000, 2000] [.node 0 0 0 0 [.node 1 1 10 50 []]] =
      Except.error (.attributeError "get_maximum_waiting_time_node") := by
  rfl

/-- A solved path-tree node as `Network.check_schedule` reads it: link id,
transmission time, the solved integer offset grid, and the children. -/
inductive VPath where
  | node (linkId : Nat) (ttime : Int) (grid : List (List Int)) (children : List VPath)
deriving Repr

instance : Inhabited VPath :=
  ⟨.node 0 0 [] []⟩

/-- Link id of a verifier path node. -/
def VPath.linkId : VPath → Nat
  | .node l _ _ _ => l

/-- Transmission time of a verifier path node. -/
def VPath.ttime : VPath → Int
  | .node _ t _ _ => t

/-- Offset grid of a verifier path node. -/
def VPath.grid : VPath → List (List Int)
  | .node _ _ g _ => g

/-- Children of a verifier path node. -/
def VPath.children : VPath → List VPath
  | .node _ _ _ cs => cs

/-- `TreePath.get_num_instances`: number of grid rows. -/
def VPath.numInstances (p : VPath) : Nat :=
  p.grid.length

/-- `TreePath.get_num_replicas`: length of the first grid row. -/
def VPath.numReplicas (p : VPath) : Nat :=
  (p.grid.headD []).length

/-- `TreePath.get_offset` for indices the surrounding loops keep in
range. -/
def VPath.offsetAt (p : VPath) (i r : Nat) : Int :=
  (p.grid.getD i []).getD r 0

/-- `TreePath.get_offset` inside the verifier's `try` block: an
out-of-range index raises `IndexError`, modelled by `none`. -/
def VPath.offsetAtOpt (p : VPath) (i r : Nat) : Option Int :=
  (p.grid[i]?).bind fun row => row[r]?

mutual

/-- `TreePath.__iter__`: pre-order traversal of the path tree. -/
def VPath.allNodes : VPath → List VPath
  | .node l t g cs => .node l t g cs :: VPath.allNodesList cs

/-- `VPath.allNodes` over a list of sibling subtrees. -/
def VPath.allNodesList : List VPath → List VPath
  | [] => []
  | p :: ps => VPath.allNodes p ++ VPath.allNodesList ps

end

mutual

/-- `TreePath.get_path_by_link`: first node in pre-order carrying the
link. -/
def VPath.pathByLink : VPath → Nat → Option VPath
  | .node l t g cs, link =>
      if l = link then some (.node l t g cs)
      else VPath.pathByLinkList cs link

/-- `VPath.pathByLink` over a list of sibling subtrees. -/
def VPath.pathByLinkList : List VPath → Nat → Option VPath
  | [], _ => none
  | p :: ps, link =>
      match VPath.pathByLink p link with
      | some q => some q
      | none => VPath.pathByLinkList ps link

end

/-- A frame as the verifier reads it: period, deadline, the solved path
tree, and the splits matrix. -/
structure VFrame where
  period : Int
  deadline : Int
  root : VPath
  splits : List (List Nat)
deriving Repr, Inhabited

/-- The network state `Network.check_schedule` runs over. -/
structure VNetwork where
  frames : List VFrame
  collisionDomains : List (List Nat)
  numDependencies : Nat
  depTrees : List DepNode
  sensingPeriod : Option Int
  sensingPaths : List VPath
  replicaPolicy : String
  replicaInterval : Int
  minSwitch : Int
  maxSwitch : Int
deriving Repr

/-- The verifier's contention check of one grid entry of `p` (its offset is
`off`) against every grid entry of a co-resource path `q`: a violation is
`off < O_q + T_q ∧ off + T_p > O_q`. -/
def checkContentionPair (p : VPath) (off : Int) (q : VPath) : Bool :=
  (List.range q.numInstances).all fun oi =>
    (List.range q.numReplicas).all fun orr =>
      let ooff := q.offsetAt oi orr
      if off < ooff + q.ttime ∧ off + p.ttime > ooff then false else true

/-- The verifier's contention loop: every path of every *other* frame that
shares a link or a collision domain with `p`. -/
def checkContentionOthers (cds : List (List Nat)) (frames : List VFrame)
    (fIdx : Nat) (p : VPath) (off : Int) : Bool :=
  (List.range frames.length).all fun ofIdx =>
    if fIdx = ofIdx then true
    else
      (VPath.allNodes (frames.getD ofIdx default).root).all fun q =>
        if sharesResource cds p.linkId q.linkId then checkContentionPair p off q
        else true

/-- The verifier's sensing-and-control check: only when a sensing period is
configured and `p`'s link lies in a collision domain. -/
def checkSensing (net : VNetwork) (p : VPath) (off : Int) : Bool :=
  match net.sensingPeriod with
  | none => true
  | some _ =>
      if linkInCollisionDomain net.collisionDomains p.linkId ≥ 0 then
        net.sensingPaths.all fun sp =>
          (List.range sp.numInstances).all fun si =>
            let ooff := sp.offsetAt si 0
            if off < ooff + sp.ttime ∧ off + p.ttime > ooff then false else true
      else true

/-- The verifier's per-child checks for one grid entry, inside the
source's `try/except IndexError: pass` block: the switch-residence bound,
then — for every child after the first — the simultaneous-dispatch
comparison, which is guarded by `path.get_num_replicas() == 0`.  (That
guard can never hold while the entry loops run, since `r` ranges over
`range(num_replicas)`.) -/
def checkChildren (net : VNetwork) (p : VPath) (i r : Nat) : Bool :=
  (List.range p.children.length).all fun idx =>
    let child := p.children.getD idx default
    match child.offsetAtOpt i r, p.offsetAtOpt i r with
    | some co, some po =>
        if co - po < net.minSwitch ∨ co - po > net.maxSwitch then false
        else
          if 0 < idx then
            match (p.children.getD (idx - 1) default).offsetAtOpt i r,
                  (p.children.getD idx default).offsetAtOpt i r with
            | some a, some b =>
                if a ≠ b ∧ p.numReplicas = 0 then false else true
            | _, _ => true
          else true
    | _, _ => true

/-- The verifier's checks for one grid entry `(i, r)` of one path of one
frame: contention against other frames, sensing blocks, period, deadline,
replica stride, instance stride, and the per-child checks. -/
def checkEntry (net : VNetwork) (fIdx : Nat) (frame : VFrame) (p : VPath)
    (i r : Nat) : Bool :=
  let off := p.offsetAt i r
  checkContentionOthers net.collisionDomains net.frames fIdx p off &&
  checkSensing net p off &&
  (if off > frame.period * ((i : Int) + 1) then false else true) &&
  (if off > frame.period * (i : Int) + frame.deadline then false else true) &&
  (if 0 < r then
      (let distance := off - p.offsetAt i (r - 1)
       if net.replicaPolicy = "Spread" then
         (if distance ≠ net.replicaInterval then false else true)
       else if net.replicaPolicy = "Continuous" then
         (if distance ≠ p.ttime then false else true)
       else true)
    else true) &&
  (if 0 < i then
      (if off - p.offsetAt (i - 1) r ≠ frame.period then false else true)
    else true) &&
  checkChildren net p i r

/-- The verifier's dependency check for one frame: find its dependency
node; when it has a parent, the distance between the first offsets of the
successor's and the predecessor's dependency links must satisfy
`waiting ≤ distance` and, when the deadline is non-zero,
`distance ≤ deadline`. -/
def checkDependency (net : VNetwork) (fIdx : Nat) (frame : VFrame) : Bool :=
  if 0 < net.numDependencies then
    match getDependencyByFrame net.depTrees fIdx with
    | none => true
    | some (_, none) => true
    | some (dep, some parentDep) =>
        match frame.root.pathByLink dep.linkIndex,
              (net.frames.getD parentDep.frameIndex default).root.pathByLink
                parentDep.linkIndex with
        | some path, some ppath =>
            let distance := path.offsetAt 0 0 - ppath.offsetAt 0 0
            if distance < dep.waiting ∨
                (dep.deadline ≠ 0 ∧ distance > dep.deadline) then false
            else true
        | _, _ => true
  else true

/-- `Network.check_schedule`, clause by clause: `True` iff no check fires
for any frame, path, instance and replica. -/
def checkSchedule (net : VNetwork) : Bool :=
  (List.range net.frames.length).all fun fIdx =>
    let frame := net.frames.getD fIdx default
    ((VPath.allNodes frame.root).all fun p =>
      (List.range p.numInstances).all fun i =>
        (List.range p.numReplicas).all fun r =>
          checkEntry net fIdx frame p i r) &&
    checkDependency net fIdx frame

/-- The V7 condition in the claim's words: some split whose links all lie
outside every collision domain carries two sibling paths with different
first offsets `O[0][0]`. -/
def v7SimultaneousDispatchViolated (net : VNetwork) : Bool :=
  net.frames.any fun frame =>
    frame.splits.any fun split =>
      (split.all fun l =>
        if linkInCollisionDomain net.collisionDomains l ≥ 0 then false else true) &&
      ((VPath.allNodes frame.root).any fun p =>
        (VPath.allNodes frame.root).any fun q =>
          if p.linkId ∈ split ∧ q.linkId ∈ split ∧
              p.offsetAt 0 0 ≠ q.offsetAt 0 0 then true else false)

/-- A stored schedule violating simultaneous dispatch: one frame, root on
link 0 at offset 0, children on links 1 and 2 (the split) at *different*
offsets 5 and 6, both within the switch bounds `[1, 10]`; no collision
domains, no dependencies, no sensing. -/
def exampleV7Net : VNetwork where
  frames := [{ period := 1000, deadline := 1000,
               root := .node 0 10 [[0]]
                 [.node 1 10 [[5]] [], .node 2 10 [[6]] []],
               splits := [[1, 2]] }]
  collisionDomains := []
  numDependencies := 0
  depTrees := []
  sensingPeriod := none
  sensingPaths := []
  replicaPolicy := "Spread"
  replicaInterval := 0
  minSwitch := 1
  maxSwitch := 10

/-- **C6.**  `Network.check_schedule` *accepts* a stored schedule in which
a split with no collision-domain link has two sibling paths with different
`O[0][0]` (5 versus 6): the simultaneous-dispatch comparison is guarded by
`path.get_num_replicas() == 0`, which never holds because every grid has at
least one replica column, so the check is dead code and the claimed
rejection does not happen. -/
theorem check_schedule_c6_misses_simultaneous_dispatch :
    checkSchedule exampleV7Net = true ∧
    v7SimultaneousDispatchViolated exampleV7Net = true := by
  constructor
  · rfl
  · rfl

end MetaScheduler
